import Mathlib

/-!
Shallow embedding of the farm-market-agribuddy repository (a React/Supabase
produce marketplace) together with proofs of the specification claims.

JavaScript numbers that hold money amounts and kilogram quantities are
modelled as `Int`; timestamps are modelled as `Nat`.  Remote calls are
modelled by passing their results in explicitly (as `Except`/`Option`
oracles), and the side effects a function performs (network invocations,
database writes, toasts, navigation) are recorded as an event trace.
-/

namespace FarmMarket

/-- A Firebase auth user as used by the app: `uid`, optional phone, optional
email (src/src/contexts/AuthContext.tsx, src/unnamed/part_000). -/
structure AuthUser where
  uid : String
  phoneNumber : Option String
  email : Option String
  deriving Repr, DecidableEq

/-- The `Crop` record of src/unnamed/part_000 lines 21-30. -/
structure Crop where
  id : String
  name : String
  description : String
  price_per_kg : Int
  quantity_kg : Int
  image_url : Option String
  location : Option String
  farmer_id : String
  deriving Repr, DecidableEq

/-- The row inserted into `orders` by the payment success handler
(src/unnamed/part_000 lines 133-143).  `buyer_id` is an `Option`: the
source populates it with `user.id`, but the auth user exposed by
AuthContext is a Firebase `User`, which has `uid` and no `id` field, so
the value read is `undefined` — modelled as `none`. -/
structure OrderRecord where
  buyer_id : Option String
  farmer_id : String
  crop_id : String
  quantity_kg : Int
  total_price : Int
  status : String
  delivery_address : String
  razorpay_order_id : String
  razorpay_payment_id : String
  deriving Repr, DecidableEq

/-- The remote order returned by the create-razorpay-order edge function:
the fields the client uses (`id`, `amount`) of the Razorpay order JSON. -/
structure RemoteOrder where
  id : String
  amount : Int
  deriving Repr, DecidableEq

/-- The success response of the checkout widget (src/unnamed/part_000 line 131). -/
structure PaymentResponse where
  razorpay_order_id : String
  razorpay_payment_id : String
  deriving Repr, DecidableEq

/-- One observable action of the client payment flow.  The constructors
`refundPayment`, `deleteOrderRecord` and `retryStep` are compensating
actions a reconciliation mechanism could take; the code never emits them. -/
inductive Event where
  | invokeCreateOrder (amount : Int) (cropId : String) (quantity : Int)
  | openCheckout (orderId : String)
  | insertOrder (record : OrderRecord)
  | updateCrop (cropId : String) (newQuantity : Int) (available : Bool)
  | showToast (title : String)
  | navigateTo (path : String)
  | refundPayment (paymentId : String)
  | deleteOrderRecord (orderId : String)
  | retryStep
  deriving Repr, DecidableEq

/-- Events that talk to the network / remote store. -/
def Event.isRemote : Event → Bool
  | .invokeCreateOrder _ _ _ => true
  | .openCheckout _ => true
  | .insertOrder _ => true
  | .updateCrop _ _ _ => true
  | _ => false

/-- Compensating actions (refund, rollback of the order row, retry):
the repository contains no code that performs any of them. -/
def Event.isCompensation : Event → Bool
  | .refundPayment _ => true
  | .deleteOrderRecord _ => true
  | .retryStep => true
  | _ => false

/-- Results of the remote calls `handlePayment` makes, passed in as oracles.
`updateResult` is the result of the crop-stock update; the source drops it
without looking at it (src/unnamed/part_000 lines 148-154 have no error
check), so no definition below reads this field. -/
structure PayEnv where
  createOrderResult : Except String RemoteOrder
  checkoutOutcome : Option PaymentResponse
  insertResult : Except String Unit
  updateResult : Except String Unit

/-- JavaScript `String.prototype.trim()`: drop leading and trailing
whitespace (used by the address guard, src/unnamed/part_000 line 94). -/
def jsTrim (s : String) : String :=
  ⟨(((s.data.dropWhile Char.isWhitespace).reverse).dropWhile
      Char.isWhitespace).reverse⟩

/-- `handlePayment` of src/unnamed/part_000 lines 84-182, as the trace of
events it performs.  `crop` is non-optional: the page renders the pay
button only once a crop is loaded (lines 201-210), and the guard
`quantity > (crop?.quantity_kg || 0)` then reads the stock of the loaded crop.
The success `handler` (lines 131-162) runs only when the checkout widget
reports success; a failed order insert throws inside that async callback,
which ends the flow (the outer catch does not see it).  The insert reads
`buyer_id: user.id` (line 134): the Firebase auth user has no `id` field
(Chat.tsx reads `user.uid` instead), so the inserted buyer reference is
`undefined`, modelled as `none`. -/
def handlePayment (user : Option AuthUser) (crop : Crop) (quantity : Int)
    (address : String) (env : PayEnv) : List Event :=
  match user with
  | none => [.showToast "loginRequired", .navigateTo "/auth"]
  | some _u =>
    if jsTrim address = "" then
      [.showToast "addressRequired"]
    else if quantity > crop.quantity_kg then
      [.showToast "insufficientStock"]
    else
      .invokeCreateOrder (crop.price_per_kg * quantity) crop.id quantity ::
      match env.createOrderResult with
      | .error _ => [.showToast "error"]
      | .ok remote =>
        .openCheckout remote.id ::
        match env.checkoutOutcome with
        | none => []
        | some resp =>
          let record : OrderRecord :=
            { buyer_id := none
              farmer_id := crop.farmer_id
              crop_id := crop.id
              quantity_kg := quantity
              total_price := crop.price_per_kg * quantity
              status := "paid"
              delivery_address := address
              razorpay_order_id := resp.razorpay_order_id
              razorpay_payment_id := resp.razorpay_payment_id }
          .insertOrder record ::
          match env.insertResult with
          | .error _ => []
          | .ok _ =>
            .updateCrop crop.id (crop.quantity_kg - quantity)
                (decide (crop.quantity_kg - quantity > 0)) ::
            [.showToast "paymentSuccess", .navigateTo "/orders"]

/-- A toast notification: title, optional description, destructive flag. -/
structure Toast where
  title : String
  description : Option String
  destructive : Bool
  deriving Repr, DecidableEq

/-- The `ChatRoom` row of src/src/pages/Chat.tsx lines 14-20
(`crop_id` is nullable; `updated_at` modelled as `Nat`). -/
structure ChatRow where
  id : String
  farmer_id : String
  buyer_id : String
  crop_id : Option String
  updated_at : Nat
  deriving Repr, DecidableEq

/-- The `Message` row of src/src/pages/Chat.tsx lines 22-29: a message
carries its sender (`sender_id`), `content`, creation timestamp
(`created_at`, modelled as `Nat`) and `read` flag. -/
structure Message where
  id : String
  chat_id : String
  sender_id : String
  content : String
  created_at : Nat
  read : Bool
  deriving Repr, DecidableEq

/-- The supabase query of `findOrCreateChat` lines 108-114: filter for the
exact buyer+farmer+crop triple. -/
def matchesTriple (buyerId farmerId cropId : String) (ch : ChatRow) : Bool :=
  ch.buyer_id == buyerId && ch.farmer_id == farmerId && ch.crop_id == some cropId

/-- `.single()` of the supabase client: yields a row only when the filtered
result has exactly one; otherwise it errors, and `findOrCreateChat`
destructures only `data`, so the error surfaces as a `none`. -/
def singleChat (buyerId farmerId cropId : String) (db : List ChatRow) :
    Option ChatRow :=
  match db.filter (matchesTriple buyerId farmerId cropId) with
  | [ch] => some ch
  | _ => none

/-- Number of chats in the store matching a buyer+farmer+crop triple. -/
def countTriple (buyerId farmerId cropId : String) (db : List ChatRow) : Nat :=
  (db.filter (matchesTriple buyerId farmerId cropId)).length

/-- The outcome of `findOrCreateChat`: the chats table afterwards, the chat
made active (if any), and the notifications produced. -/
structure ChatOutcome where
  db : List ChatRow
  activeChat : Option String
  toasts : List Toast
  consoleErrors : List String
  deriving Repr, DecidableEq

/-- `findOrCreateChat` of src/src/pages/Chat.tsx lines 103-145.  `newId` and
`now` stand for the id and timestamp the store would assign to an inserted
row; `insertResult` is the result of the insert call.  When a unique chat
matching the triple exists it is activated; otherwise a new chat carrying
the triple is inserted and activated; an insert error is logged and
toasted. -/
def findOrCreateChat (user : Option AuthUser) (farmerId cropId : String)
    (newId : String) (now : Nat) (insertResult : Except String Unit)
    (db : List ChatRow) : ChatOutcome :=
  match user with
  | none => { db := db, activeChat := none, toasts := [], consoleErrors := [] }
  | some u =>
    match singleChat u.uid farmerId cropId db with
    | some existing =>
      { db := db, activeChat := some existing.id, toasts := [], consoleErrors := [] }
    | none =>
      match insertResult with
      | .ok _ =>
        let newChat : ChatRow :=
          { id := newId, farmer_id := farmerId, buyer_id := u.uid
            crop_id := some cropId, updated_at := now }
        { db := db ++ [newChat], activeChat := some newId
          toasts := [], consoleErrors := [] }
      | .error e =>
        { db := db, activeChat := none
          toasts := [{ title := "error", description := some e, destructive := true }]
          consoleErrors := ["Create chat error: " ++ e] }

/-- The comparison the `messages` query orders by:
`created_at` ascending (src/src/pages/Chat.tsx line 153). -/
def msgLe (a b : Message) : Prop :=
  a.created_at ≤ b.created_at

instance : DecidableRel msgLe := fun a b => Nat.decLe a.created_at b.created_at

instance : IsTotal Message msgLe := ⟨fun a b => Nat.le_total a.created_at b.created_at⟩

instance : IsTrans Message msgLe := ⟨fun _ _ _ hab hbc => Nat.le_trans hab hbc⟩

/-- The supabase query of `fetchMessages` lines 149-153: select the messages
of the chat, ordered by `created_at` ascending. -/
def fetchMessagesQuery (db : List Message) (chatId : String) : List Message :=
  List.insertionSort msgLe (db.filter (fun m => m.chat_id == chatId))

/-- What a fetch function leaves behind: the state it set (if any), the
toasts and console messages it produced. -/
structure FetchOutcome (α : Type) where
  stateSet : Option α
  toasts : List Toast
  consoleErrors : List String

/-- The control flow of `fetchChats` (src/src/pages/Chat.tsx lines 86-101):
on success the chats state is set; a caught error is only logged to the
console — no toast. -/
def fetchChatsRun (res : Except String (List ChatRow)) :
    FetchOutcome (List ChatRow) :=
  match res with
  | .ok data => { stateSet := some data, toasts := [], consoleErrors := [] }
  | .error e =>
    { stateSet := none, toasts := []
      consoleErrors := ["Fetch chats error: " ++ e] }

/-- The control flow of `fetchMessages` (src/src/pages/Chat.tsx lines
147-160): on success the messages state is set; a caught error is only
logged to the console — no toast. -/
def fetchMessagesRun (res : Except String (List Message)) :
    FetchOutcome (List Message) :=
  match res with
  | .ok data => { stateSet := some data, toasts := [], consoleErrors := [] }
  | .error e =>
    { stateSet := none, toasts := []
      consoleErrors := ["Fetch messages error: " ++ e] }

/-- The error-handling control flow of `sendMessage` (src/src/pages/Chat.tsx
lines 162-187): a caught error is surfaced as a destructive toast. -/
def sendMessageRun (res : Except String Unit) : FetchOutcome Unit :=
  match res with
  | .ok _ => { stateSet := some (), toasts := [], consoleErrors := [] }
  | .error e =>
    { stateSet := none
      toasts := [{ title := "error", description := some e, destructive := true }]
      consoleErrors := [] }

/-- The order row as displayed by src/src/pages/Orders.tsx lines 12-21. -/
structure OrderRow where
  id : String
  crop_id : String
  quantity_kg : Int
  total_price : Int
  status : String
  created_at : Nat
  delivery_address : Option String
  razorpay_payment_id : Option String
  deriving Repr, DecidableEq

/-- The control flow of `fetchOrders` (src/src/pages/Orders.tsx lines 44-63):
on success the orders state is set; a caught error is surfaced as a
destructive toast with the error message. -/
def fetchOrdersRun (res : Except String (List OrderRow)) :
    FetchOutcome (List OrderRow) :=
  match res with
  | .ok data => { stateSet := some data, toasts := [], consoleErrors := [] }
  | .error e =>
    { stateSet := none
      toasts := [{ title := "error", description := some e, destructive := true }]
      consoleErrors := [] }

/-- The control flow of `fetchCrop` (src/unnamed/part_000 lines 61-80):
on success the crop state is set; a caught error is surfaced as a
destructive toast with the error message. -/
def fetchCropRun (res : Except String Crop) : FetchOutcome Crop :=
  match res with
  | .ok data => { stateSet := some data, toasts := [], consoleErrors := [] }
  | .error e =>
    { stateSet := none
      toasts := [{ title := "error", description := some e, destructive := true }]
      consoleErrors := [] }

/-- The icon/color/label record assigned to each order status. -/
structure StatusInfo where
  icon : String
  color : String
  label : String
  deriving Repr, DecidableEq

/-- `statusConfig` of src/src/pages/Orders.tsx lines 23-28, as the
association list the object literal denotes. -/
def statusConfig : List (String × StatusInfo) :=
  [("pending", { icon := "Clock", color := "bg-yellow-500", label := "pending" }),
   ("paid", { icon := "CheckCircle", color := "bg-green-500", label := "paid" }),
   ("delivered", { icon := "Truck", color := "bg-blue-500", label := "delivered" }),
   ("cancelled", { icon := "XCircle", color := "bg-red-500", label := "cancelled" })]

/-- The TypeScript union type of `Order.status`
(src/src/pages/Orders.tsx line 17). -/
inductive OrderStatus where
  | pending
  | paid
  | delivered
  | cancelled
  deriving Repr, DecidableEq

/-- The string each `OrderStatus` denotes. -/
def OrderStatus.str : OrderStatus → String
  | .pending => "pending"
  | .paid => "paid"
  | .delivered => "delivered"
  | .cancelled => "cancelled"

/-- The roles of src/src/contexts/AuthContext.tsx line 13. -/
inductive Role where
  | farmer
  | buyer
  | admin
  deriving Repr, DecidableEq

/-- The hard-coded admin phone number
(src/src/contexts/AuthContext.tsx line 7). -/
def ADMIN_PHONE : String := "+919381179867"

/-- A row upserted into `profiles`. -/
structure ProfileRow where
  id : String
  phone : Option String
  role : Role
  deriving Repr, DecidableEq

/-- The auth state the provider ends in after an auth state change, plus
the profile upserts it performed. -/
structure AuthState where
  userRole : Option Role
  needsRoleSelection : Bool
  upserts : List ProfileRow
  deriving Repr, DecidableEq

/-- The `onAuthStateChanged` callback of src/src/contexts/AuthContext.tsx
lines 32-69.  `storedRole` is the result of the `profiles` role lookup for
the signed-in user (none when the profile row or its role is missing). -/
def onAuthChange (firebaseUser : Option AuthUser) (storedRole : Option Role) :
    AuthState :=
  match firebaseUser with
  | none => { userRole := none, needsRoleSelection := false, upserts := [] }
  | some u =>
    if u.phoneNumber = some ADMIN_PHONE then
      { userRole := some .admin
        needsRoleSelection := false
        upserts := [{ id := u.uid, phone := u.phoneNumber, role := .admin }] }
    else
      match storedRole with
      | some r => { userRole := some r, needsRoleSelection := false, upserts := [] }
      | none => { userRole := none, needsRoleSelection := true, upserts := [] }

/-- `setUserRole` of src/src/contexts/AuthContext.tsx lines 74-87: with a
signed-in user it upserts the chosen role and, when the upsert succeeds,
sets the role state and clears the role-selection flag. -/
def setUserRole (user : Option AuthUser) (role : Role)
    (upsertResult : Except String Unit) (st : AuthState) : AuthState :=
  match user with
  | none => st
  | some u =>
    let attempted := st.upserts ++ [{ id := u.uid, phone := u.phoneNumber, role := role }]
    match upsertResult with
    | .ok _ =>
      { userRole := some role, needsRoleSelection := false, upserts := attempted }
    | .error _ => { st with upserts := attempted }

/-- JavaScript truthiness of a `string | undefined` environment variable:
`undefined` and the empty string are falsy. -/
def jsTruthyStr : Option String → Bool
  | none => false
  | some s => !(s == "")

/-- The order payload the edge function submits to the Razorpay API
(src/unnamed/part_004 lines 23-31). -/
structure RazorpayOrderData where
  amount : Int
  currency : String
  receipt : String
  notesCropId : String
  notesQuantity : Int
  deriving Repr, DecidableEq

/-- The JSON body of the HTTP response of the edge function. -/
inductive EdgeBody where
  | order (o : RemoteOrder)
  | errorJson (msg : String)
  deriving Repr, DecidableEq

/-- The HTTP response of the edge function, together with the list of order
payloads it submitted to the Razorpay API. -/
structure EdgeResponse where
  status : Nat
  body : EdgeBody
  submitted : List RazorpayOrderData
  deriving Repr, DecidableEq

/-- The environment of the edge function: the two Razorpay credentials,
the clock (for the receipt), whether the Razorpay API call succeeds
(`response.ok`), and the order JSON it returns when it does. -/
structure EdgeEnv where
  keyId : Option String
  keySecret : Option String
  now : Nat
  apiOk : Bool
  apiOrder : RemoteOrder

/-- The create-razorpay-order edge function handler of src/unnamed/part_004
lines 13-65 on a parsed request body: missing (or empty, hence falsy)
credentials throw, the order is submitted with the amount converted to
paise and currency INR, a non-ok API response throws, and every caught
error becomes a 500 response whose JSON body carries the error message. -/
def createRazorpayOrder (amount : Int) (cropId : String) (quantity : Int)
    (env : EdgeEnv) : EdgeResponse :=
  if jsTruthyStr env.keyId && jsTruthyStr env.keySecret then
    let orderData : RazorpayOrderData :=
      { amount := amount * 100
        currency := "INR"
        receipt := "order_" ++ toString env.now
        notesCropId := cropId
        notesQuantity := quantity }
    if env.apiOk then
      { status := 200, body := .order env.apiOrder, submitted := [orderData] }
    else
      { status := 500, body := .errorJson "Failed to create Razorpay order"
        submitted := [orderData] }
  else
    { status := 500, body := .errorJson "Razorpay credentials not configured"
      submitted := [] }

/-- Claim C1, evaluated at a failing input (the claim is right and the
code is wrong): a fully successful checkout does run as create order →
open checkout with the returned order id → insert the order record with
status "paid" → decrement stock, in that order, but the inserted record
does not carry the buyer: the source reads `user.id` (part_000 line 134),
a field the Firebase auth user does not have (Chat.tsx reads `user.uid`),
so the buyer reference of every inserted order is undefined instead of
the id of the signed-in buyer. -/
theorem payment_flow_buyer_undefined :
    handlePayment
        (some { uid := "buyer1", phoneNumber := none, email := some "b@x.in" })
        { id := "crop1", name := "Rice", description := "basmati"
          price_per_kg := 40, quantity_kg := 10, image_url := none
          location := none, farmer_id := "farmer1" }
        3 "12 Main St"
        { createOrderResult := .ok { id := "rzp1", amount := 12000 }
          checkoutOutcome := some { razorpay_order_id := "rzp1"
                                    razorpay_payment_id := "pay1" }
          insertResult := .ok (), updateResult := .ok () } =
      [.invokeCreateOrder 120 "crop1" 3,
       .openCheckout "rzp1",
       .insertOrder
         { buyer_id := none, farmer_id := "farmer1", crop_id := "crop1"
           quantity_kg := 3, total_price := 120, status := "paid"
           delivery_address := "12 Main St", razorpay_order_id := "rzp1"
           razorpay_payment_id := "pay1" },
       .updateCrop "crop1" 7 true,
       .showToast "paymentSuccess",
       .navigateTo "/orders"] ∧
    ∀ record : OrderRecord,
      Event.insertOrder record ∈
        handlePayment
          (some { uid := "buyer1", phoneNumber := none
                  email := some "b@x.in" })
          { id := "crop1", name := "Rice", description := "basmati"
            price_per_kg := 40, quantity_kg := 10, image_url := none
            location := none, farmer_id := "farmer1" }
          3 "12 Main St"
          { createOrderResult := .ok { id := "rzp1", amount := 12000 }
            checkoutOutcome := some { razorpay_order_id := "rzp1"
                                      razorpay_payment_id := "pay1" }
            insertResult := .ok (), updateResult := .ok () } →
        record.buyer_id = none ∧ record.buyer_id ≠ some "buyer1" := by
  have htrace :
      handlePayment
          (some { uid := "buyer1", phoneNumber := none
                  email := some "b@x.in" })
          { id := "crop1", name := "Rice", description := "basmati"
            price_per_kg := 40, quantity_kg := 10, image_url := none
            location := none, farmer_id := "farmer1" }
          3 "12 Main St"
          { createOrderResult := .ok { id := "rzp1", amount := 12000 }
            checkoutOutcome := some { razorpay_order_id := "rzp1"
                                      razorpay_payment_id := "pay1" }
            insertResult := .ok (), updateResult := .ok () } =
        [.invokeCreateOrder 120 "crop1" 3,
         .openCheckout "rzp1",
         .insertOrder
           { buyer_id := none, farmer_id := "farmer1", crop_id := "crop1"
             quantity_kg := 3, total_price := 120, status := "paid"
             delivery_address := "12 Main St", razorpay_order_id := "rzp1"
             razorpay_payment_id := "pay1" },
         .updateCrop "crop1" 7 true,
         .showToast "paymentSuccess",
         .navigateTo "/orders"] := by decide
  refine ⟨htrace, ?_⟩
  intro record hrec
  rw [htrace] at hrec
  simp only [List.mem_cons, List.not_mem_nil, or_false] at hrec
  rcases hrec with h | h | h | h | h | h <;> simp_all

/-- Claim C6: under the same success hypotheses as the full flow, the
stock-decrement step records the new quantity as exactly the prior stock
minus the purchased quantity, with the available flag true exactly when
that difference is positive. -/
theorem stock_decrement_exact (u : AuthUser) (crop : Crop) (quantity : Int)
    (address : String) (env : PayEnv) (remote : RemoteOrder)
    (resp : PaymentResponse)
    (haddr : ¬ jsTrim address = "") (hq : quantity ≤ crop.quantity_kg)
    (hco : env.createOrderResult = .ok remote)
    (hch : env.checkoutOutcome = some resp)
    (hins : env.insertResult = .ok ()) :
    ∃ b : Bool,
      Event.updateCrop crop.id (crop.quantity_kg - quantity) b ∈
        handlePayment (some u) crop quantity address env ∧
      (b = true ↔ crop.quantity_kg - quantity > 0) := by
  refine ⟨decide (crop.quantity_kg - quantity > 0), ?_, by simp⟩
  simp [handlePayment, haddr, Int.not_lt.mpr hq, hco, hch, hins]

/-- Witness for `stock_decrement_exact` at a concrete input. -/
theorem stock_decrement_exact_witness :
    ∃ b : Bool,
      Event.updateCrop "crop1" 7 b ∈
        handlePayment
          (some { uid := "buyer1", phoneNumber := none, email := none })
          { id := "crop1", name := "Rice", description := "basmati"
            price_per_kg := 40, quantity_kg := 10, image_url := none
            location := none, farmer_id := "farmer1" }
          3 "12 Main St"
          { createOrderResult := .ok { id := "rzp1", amount := 12000 }
            checkoutOutcome := some { razorpay_order_id := "rzp1"
                                      razorpay_payment_id := "pay1" }
            insertResult := .ok (), updateResult := .ok () } ∧
      (b = true ↔ (7 : Int) > 0) :=
  stock_decrement_exact
    { uid := "buyer1", phoneNumber := none, email := none }
    { id := "crop1", name := "Rice", description := "basmati"
      price_per_kg := 40, quantity_kg := 10, image_url := none
      location := none, farmer_id := "farmer1" }
    3 "12 Main St"
    { createOrderResult := .ok { id := "rzp1", amount := 12000 }
      checkoutOutcome := some { razorpay_order_id := "rzp1"
                                razorpay_payment_id := "pay1" }
      insertResult := .ok (), updateResult := .ok () }
    { id := "rzp1", amount := 12000 }
    { razorpay_order_id := "rzp1", razorpay_payment_id := "pay1" }
    (by decide) (by decide) rfl rfl rfl

/-- Claim C9: when there is no signed-in user, or the delivery address is
blank after trimming, or the requested quantity exceeds the available
stock, `handlePayment` produces only a notification (plus, for a missing
user, a navigation to the auth page) and performs no remote action: no
order-creation call, no checkout, no order insert, no stock update. -/
theorem payment_guards (user : Option AuthUser) (crop : Crop) (quantity : Int)
    (address : String) (env : PayEnv)
    (h : user = none ∨ jsTrim address = "" ∨ quantity > crop.quantity_kg) :
    (handlePayment user crop quantity address env =
        [.showToast "loginRequired", .navigateTo "/auth"] ∨
     handlePayment user crop quantity address env =
        [.showToast "addressRequired"] ∨
     handlePayment user crop quantity address env =
        [.showToast "insufficientStock"]) ∧
    ∀ e ∈ handlePayment user crop quantity address env, e.isRemote = false := by
  rcases user with _ | u
  · refine ⟨Or.inl rfl, ?_⟩
    intro e he
    simp only [handlePayment, List.mem_cons, List.not_mem_nil, or_false] at he
    rcases he with rfl | rfl <;> rfl
  · by_cases ha : jsTrim address = ""
    · refine ⟨Or.inr (Or.inl (by simp [handlePayment, ha])), ?_⟩
      intro e he
      simp only [handlePayment, if_pos ha, List.mem_cons, List.not_mem_nil,
        or_false] at he
      subst he
      rfl
    · rcases h with h | h | h
      · exact absurd h (by simp)
      · exact absurd h ha
      · refine ⟨Or.inr (Or.inr (by simp [handlePayment, ha, h])), ?_⟩
        intro e he
        simp only [handlePayment, if_neg ha, if_pos h, List.mem_cons,
          List.not_mem_nil, or_false] at he
        subst he
        rfl

/-- Witness for `payment_guards`: with no signed-in user the flow only
toasts and navigates to the auth page. -/
theorem payment_guards_witness :
    (handlePayment none
        { id := "crop1", name := "Rice", description := "basmati"
          price_per_kg := 40, quantity_kg := 10, image_url := none
          location := none, farmer_id := "farmer1" }
        3 "12 Main St"
        { createOrderResult := .ok { id := "rzp1", amount := 12000 }
          checkoutOutcome := none, insertResult := .ok ()
          updateResult := .ok () } =
        [.showToast "loginRequired", .navigateTo "/auth"] ∨
     handlePayment none
        { id := "crop1", name := "Rice", description := "basmati"
          price_per_kg := 40, quantity_kg := 10, image_url := none
          location := none, farmer_id := "farmer1" }
        3 "12 Main St"
        { createOrderResult := .ok { id := "rzp1", amount := 12000 }
          checkoutOutcome := none, insertResult := .ok ()
          updateResult := .ok () } =
        [.showToast "addressRequired"] ∨
     handlePayment none
        { id := "crop1", name := "Rice", description := "basmati"
          price_per_kg := 40, quantity_kg := 10, image_url := none
          location := none, farmer_id := "farmer1" }
        3 "12 Main St"
        { createOrderResult := .ok { id := "rzp1", amount := 12000 }
          checkoutOutcome := none, insertResult := .ok ()
          updateResult := .ok () } =
        [.showToast "insufficientStock"]) ∧
    ∀ e ∈ handlePayment none
        { id := "crop1", name := "Rice", description := "basmati"
          price_per_kg := 40, quantity_kg := 10, image_url := none
          location := none, farmer_id := "farmer1" }
        3 "12 Main St"
        { createOrderResult := .ok { id := "rzp1", amount := 12000 }
          checkoutOutcome := none, insertResult := .ok ()
          updateResult := .ok () }, e.isRemote = false :=
  payment_guards none _ 3 "12 Main St" _ (Or.inl rfl)

/-- Helper: every trace of the payment flow is free of compensating
actions, stated as a computation over the trace. -/
theorem handlePayment_comp_free (user : Option AuthUser) (crop : Crop)
    (q : Int) (addr : String) (env : PayEnv) :
    (handlePayment user crop q addr env).all
        (fun e => !e.isCompensation) = true := by
  unfold handlePayment
  repeat' split
  all_goals simp [Event.isCompensation]

/-- Claim C2: when the payment succeeded but the local order insert fails,
the flow stops right after the failed insert — no stock update, no further
step; moreover no run of the flow, on any inputs, ever emits a
compensating action (refund, order-row rollback, retry); and the result of
the stock update is ignored outright, so a failed decrement changes
nothing about the outcome. -/
theorem no_partial_failure_recovery (u : AuthUser) (crop : Crop)
    (quantity : Int) (address : String) (env : PayEnv) (remote : RemoteOrder)
    (resp : PaymentResponse) (msg : String)
    (haddr : ¬ jsTrim address = "") (hq : quantity ≤ crop.quantity_kg)
    (hco : env.createOrderResult = .ok remote)
    (hch : env.checkoutOutcome = some resp)
    (hins : env.insertResult = .error msg) :
    (handlePayment (some u) crop quantity address env =
      [.invokeCreateOrder (crop.price_per_kg * quantity) crop.id quantity,
       .openCheckout remote.id,
       .insertOrder
         { buyer_id := none
           farmer_id := crop.farmer_id
           crop_id := crop.id
           quantity_kg := quantity
           total_price := crop.price_per_kg * quantity
           status := "paid"
           delivery_address := address
           razorpay_order_id := resp.razorpay_order_id
           razorpay_payment_id := resp.razorpay_payment_id }]) ∧
    (∀ (user2 : Option AuthUser) (crop2 : Crop) (q2 : Int) (addr2 : String)
        (env2 : PayEnv),
      ∀ e ∈ handlePayment user2 crop2 q2 addr2 env2,
        e.isCompensation = false) ∧
    (∀ x : Except String Unit,
      handlePayment (some u) crop quantity address
          { env with updateResult := x } =
        handlePayment (some u) crop quantity address env) := by
  refine ⟨by simp [handlePayment, haddr, Int.not_lt.mpr hq, hco, hch, hins],
    ?_, ?_⟩
  · intro user2 crop2 q2 addr2 env2 e he
    have hall := handlePayment_comp_free user2 crop2 q2 addr2 env2
    rw [List.all_eq_true] at hall
    simpa using hall e he
  · intro x
    cases env
    rfl

/-- Witness for `no_partial_failure_recovery` at a concrete input: a
successful payment whose order insert fails leaves the trace ending at the
failed insert. -/
theorem no_partial_failure_recovery_witness :
    handlePayment
      (some { uid := "buyer1", phoneNumber := none, email := none })
      { id := "crop1", name := "Rice", description := "basmati"
        price_per_kg := 40, quantity_kg := 10, image_url := none
        location := none, farmer_id := "farmer1" }
      3 "12 Main St"
      { createOrderResult := .ok { id := "rzp1", amount := 12000 }
        checkoutOutcome := some { razorpay_order_id := "rzp1"
                                  razorpay_payment_id := "pay1" }
        insertResult := .error "row level security violation"
        updateResult := .ok () } =
      [.invokeCreateOrder 120 "crop1" 3,
       .openCheckout "rzp1",
       .insertOrder
         { buyer_id := none, farmer_id := "farmer1", crop_id := "crop1"
           quantity_kg := 3, total_price := 120, status := "paid"
           delivery_address := "12 Main St", razorpay_order_id := "rzp1"
           razorpay_payment_id := "pay1" }] := by
  rw [(no_partial_failure_recovery
        { uid := "buyer1", phoneNumber := none, email := none }
        { id := "crop1", name := "Rice", description := "basmati"
          price_per_kg := 40, quantity_kg := 10, image_url := none
          location := none, farmer_id := "farmer1" }
        3 "12 Main St"
        { createOrderResult := .ok { id := "rzp1", amount := 12000 }
          checkoutOutcome := some { razorpay_order_id := "rzp1"
                                    razorpay_payment_id := "pay1" }
          insertResult := .error "row level security violation"
          updateResult := .ok () }
        { id := "rzp1", amount := 12000 }
        { razorpay_order_id := "rzp1", razorpay_payment_id := "pay1" }
        "row level security violation"
        (by decide) (by decide) rfl rfl rfl).1]
  decide

/-- Claim C8: the order statuses are exactly pending, paid, delivered and
cancelled, and `statusConfig` is total on that set: looking up the status
of any order yields an icon/color/label entry, never an undefined one. -/
theorem status_config_total :
    statusConfig.map Prod.fst = ["pending", "paid", "delivered", "cancelled"] ∧
    ∀ s : OrderStatus,
      s.str ∈ ["pending", "paid", "delivered", "cancelled"] ∧
      ∃ info : StatusInfo, statusConfig.lookup s.str = some info := by
  refine ⟨rfl, ?_⟩
  intro s
  cases s <;> exact ⟨by simp [OrderStatus.str], ⟨_, rfl⟩⟩

/-- Claim C10: every order payload the edge function submits to the
Razorpay API carries the rupee amount converted to paise (amount × 100)
with currency INR, and on any failure (missing credentials or a non-ok
API response) the function responds with HTTP status 500 and a JSON body
carrying the error message instead of an order. -/
theorem edge_function_amount_paise (amount : Int) (cropId : String)
    (quantity : Int) (env : EdgeEnv) :
    (∀ req ∈ (createRazorpayOrder amount cropId quantity env).submitted,
       req.amount = amount * 100 ∧ req.currency = "INR") ∧
    ((jsTruthyStr env.keyId && jsTruthyStr env.keySecret) = false →
       createRazorpayOrder amount cropId quantity env =
         { status := 500
           body := .errorJson "Razorpay credentials not configured"
           submitted := [] }) ∧
    ((jsTruthyStr env.keyId && jsTruthyStr env.keySecret) = true →
       env.apiOk = false →
       (createRazorpayOrder amount cropId quantity env).status = 500 ∧
       (createRazorpayOrder amount cropId quantity env).body =
         .errorJson "Failed to create Razorpay order") := by
  by_cases hcred : (jsTruthyStr env.keyId && jsTruthyStr env.keySecret) = true
  · by_cases hok : env.apiOk = true
    · refine ⟨?_, by simp [hcred], by simp [hok]⟩
      intro req hreq
      simp [createRazorpayOrder, hcred, hok] at hreq
      subst hreq
      exact ⟨rfl, rfl⟩
    · refine ⟨?_, by simp [hcred], ?_⟩
      · intro req hreq
        simp [createRazorpayOrder, hcred, hok] at hreq
        subst hreq
        exact ⟨rfl, rfl⟩
      · intro _ _
        constructor <;> simp [createRazorpayOrder, hcred, hok]
  · rw [Bool.not_eq_true] at hcred
    refine ⟨?_, fun _ => by simp [createRazorpayOrder, hcred], by simp [hcred]⟩
    intro req hreq
    simp [createRazorpayOrder, hcred] at hreq

/-- Witness for `edge_function_amount_paise`: with unset credentials the
response is a 500 with the configuration error message. -/
theorem edge_function_amount_paise_witness :
    createRazorpayOrder 50 "crop1" 2
        { keyId := none, keySecret := none, now := 0, apiOk := true
          apiOrder := { id := "o1", amount := 5000 } } =
      { status := 500
        body := .errorJson "Razorpay credentials not configured"
        submitted := [] } :=
  (edge_function_amount_paise 50 "crop1" 2
      { keyId := none, keySecret := none, now := 0, apiOk := true
        apiOrder := { id := "o1", amount := 5000 } }).2.1 rfl

/-- Claim C3 counterexample: an error returned by the remote chats query is
caught but produces no toast at all — it is only logged to the console, so
not every remote-call error is surfaced as a user-facing notification. -/
theorem remote_error_toast_counterexample :
    (fetchChatsRun (.error "channel rate limit")).toasts = [] ∧
    (fetchChatsRun (.error "channel rate limit")).consoleErrors ≠ [] :=
  ⟨rfl, by simp [fetchChatsRun]⟩

/-- Claim C3 as amended: errors from the remote calls of `fetchOrders`,
`fetchCrop` and `sendMessage` are caught and surfaced as destructive
toasts carrying the error message; `fetchChats` and `fetchMessages` catch
theirs but only log them to the console, with no user-facing notification;
the order-insert error inside the payment success handler is thrown
uncaught, producing no toast at all; and the results of the crop-stock
update and of a failed role upsert are ignored outright, with nothing
surfaced. -/
theorem remote_error_toasts_amended (e : String) :
    (fetchChatsRun (.error e)).toasts = [] ∧
    (fetchChatsRun (.error e)).consoleErrors = ["Fetch chats error: " ++ e] ∧
    (fetchMessagesRun (.error e)).toasts = [] ∧
    (fetchMessagesRun (.error e)).consoleErrors =
      ["Fetch messages error: " ++ e] ∧
    (fetchOrdersRun (.error e)).toasts =
      [{ title := "error", description := some e, destructive := true }] ∧
    (fetchCropRun (.error e)).toasts =
      [{ title := "error", description := some e, destructive := true }] ∧
    (sendMessageRun (.error e)).toasts =
      [{ title := "error", description := some e, destructive := true }] ∧
    (∀ (u : AuthUser) (crop : Crop) (quantity : Int) (address : String)
        (env : PayEnv) (remote : RemoteOrder) (resp : PaymentResponse),
      ¬ jsTrim address = "" → quantity ≤ crop.quantity_kg →
      env.createOrderResult = .ok remote →
      env.checkoutOutcome = some resp →
      env.insertResult = .error e →
      ∀ ev ∈ handlePayment (some u) crop quantity address env,
        ∀ t, ev ≠ .showToast t) ∧
    (∀ (user : Option AuthUser) (crop : Crop) (quantity : Int)
        (address : String) (env : PayEnv) (x : Except String Unit),
      handlePayment user crop quantity address
          { env with updateResult := x } =
        handlePayment user crop quantity address env) ∧
    (∀ (u : AuthUser) (r : Role) (st : AuthState),
      (setUserRole (some u) r (.error e) st).userRole = st.userRole ∧
      (setUserRole (some u) r (.error e) st).needsRoleSelection =
        st.needsRoleSelection) := by
  refine ⟨rfl, rfl, rfl, rfl, rfl, rfl, rfl, ?_, ?_, ?_⟩
  · intro u crop quantity address env remote resp haddr hq hco hch hins
      ev hev t
    have htrace : handlePayment (some u) crop quantity address env =
        [.invokeCreateOrder (crop.price_per_kg * quantity) crop.id quantity,
         .openCheckout remote.id,
         .insertOrder
           { buyer_id := none
             farmer_id := crop.farmer_id
             crop_id := crop.id
             quantity_kg := quantity
             total_price := crop.price_per_kg * quantity
             status := "paid"
             delivery_address := address
             razorpay_order_id := resp.razorpay_order_id
             razorpay_payment_id := resp.razorpay_payment_id }] := by
      simp [handlePayment, haddr, Int.not_lt.mpr hq, hco, hch, hins]
    rw [htrace] at hev
    simp only [List.mem_cons, List.not_mem_nil, or_false] at hev
    rcases hev with rfl | rfl | rfl <;> simp
  · intro user crop quantity address env x
    rcases user with _ | u
    · rfl
    · cases env
      rfl
  · intro u r st
    exact ⟨rfl, rfl⟩

/-- Witness for `remote_error_toasts_amended`: in a run where the payment
succeeded and the order insert fails, the first trace event is not a
toast (no toast appears at all — the thrown error is uncaught). -/
theorem remote_error_toasts_amended_witness :
    Event.invokeCreateOrder 120 "crop1" 3 ≠ Event.showToast "error" :=
  (remote_error_toasts_amended
      "row level security violation").2.2.2.2.2.2.2.1
    { uid := "buyer1", phoneNumber := none, email := none }
    { id := "crop1", name := "Rice", description := "basmati"
      price_per_kg := 40, quantity_kg := 10, image_url := none
      location := none, farmer_id := "farmer1" }
    3 "12 Main St"
    { createOrderResult := .ok { id := "rzp1", amount := 12000 }
      checkoutOutcome := some { razorpay_order_id := "rzp1"
                                razorpay_payment_id := "pay1" }
      insertResult := .error "row level security violation"
      updateResult := .ok () }
    { id := "rzp1", amount := 12000 }
    { razorpay_order_id := "rzp1", razorpay_payment_id := "pay1" }
    (by decide) (by decide) rfl rfl rfl
    (Event.invokeCreateOrder 120 "crop1" 3) (by decide) "error"

/-- Claim C5: the messages query for a chat returns exactly the messages of
that chat (a permutation of the filtered table), sorted ascending by
creation timestamp; each returned row is a `Message`, carrying sender,
content, timestamp and read flag. -/
theorem messages_ordered (db : List Message) (chatId : String) :
    List.Sorted msgLe (fetchMessagesQuery db chatId) ∧
    (∀ m ∈ fetchMessagesQuery db chatId, m.chat_id = chatId) ∧
    List.Perm (fetchMessagesQuery db chatId)
      (db.filter (fun m => m.chat_id == chatId)) := by
  refine ⟨List.sorted_insertionSort msgLe _, ?_,
    List.perm_insertionSort msgLe _⟩
  intro m hm
  have hmem : m ∈ db.filter (fun m => m.chat_id == chatId) :=
    (List.perm_insertionSort msgLe _).mem_iff.mp hm
  have hbeq := List.of_mem_filter hmem
  simpa using hbeq

/-- Claim C7: a signed-in user whose phone is the hard-coded admin phone
gets role admin with an admin profile upsert and no role selection; any
other signed-in user gets the role stored in their profile; a signed-in
user with no stored role is put into the role-selection state with a null
role; and `setUserRole` with a successful upsert persists the chosen role
and clears the role-selection state. -/
theorem auth_role_assignment (u : AuthUser) (storedRole : Option Role)
    (r : Role) (st : AuthState) :
    (u.phoneNumber = some ADMIN_PHONE →
      onAuthChange (some u) storedRole =
        { userRole := some .admin
          needsRoleSelection := false
          upserts := [{ id := u.uid, phone := u.phoneNumber, role := .admin }] }) ∧
    (u.phoneNumber ≠ some ADMIN_PHONE → storedRole = some r →
      onAuthChange (some u) storedRole =
        { userRole := some r, needsRoleSelection := false, upserts := [] }) ∧
    (u.phoneNumber ≠ some ADMIN_PHONE → storedRole = none →
      onAuthChange (some u) storedRole =
        { userRole := none, needsRoleSelection := true, upserts := [] }) ∧
    (setUserRole (some u) r (.ok ()) st =
      { userRole := some r
        needsRoleSelection := false
        upserts := st.upserts ++
          [{ id := u.uid, phone := u.phoneNumber, role := r }] }) := by
  refine ⟨fun h => by simp [onAuthChange, h],
    fun h hs => by simp [onAuthChange, h, hs],
    fun h hs => by simp [onAuthChange, h, hs],
    rfl⟩

/-- Witness for `auth_role_assignment`: the admin phone yields the admin
role and an admin profile upsert. -/
theorem auth_role_assignment_witness :
    onAuthChange
        (some { uid := "u1", phoneNumber := some "+919381179867"
                email := none })
        none =
      { userRole := some .admin
        needsRoleSelection := false
        upserts := [{ id := "u1", phone := some "+919381179867"
                      role := .admin }] } :=
  (auth_role_assignment
      { uid := "u1", phoneNumber := some "+919381179867", email := none }
      none Role.admin
      { userRole := none, needsRoleSelection := false, upserts := [] }).1 rfl

/-- Helper: a freshly inserted chat row carrying the triple matches it. -/
theorem matchesTriple_new (buyerId farmerId cropId newId : String) (now : Nat) :
    matchesTriple buyerId farmerId cropId
      { id := newId, farmer_id := farmerId, buyer_id := buyerId
        crop_id := some cropId, updated_at := now } = true := by
  simp [matchesTriple]

/-- Helper: the triple count is additive over appends. -/
theorem countTriple_append (buyerId farmerId cropId : String)
    (db1 db2 : List ChatRow) :
    countTriple buyerId farmerId cropId (db1 ++ db2) =
      countTriple buyerId farmerId cropId db1 +
        countTriple buyerId farmerId cropId db2 := by
  simp [countTriple, List.filter_append]

/-- Helper: with no chat matching the triple, the `.single()` query yields
nothing. -/
theorem singleChat_of_count_zero (buyerId farmerId cropId : String)
    (db : List ChatRow)
    (h : countTriple buyerId farmerId cropId db = 0) :
    singleChat buyerId farmerId cropId db = none := by
  unfold countTriple at h
  rw [List.length_eq_zero] at h
  unfold singleChat
  rw [h]

/-- Helper: with exactly one chat matching the triple, the `.single()`
query yields it. -/
theorem singleChat_of_count_one (buyerId farmerId cropId : String)
    (db : List ChatRow)
    (h : countTriple buyerId farmerId cropId db = 1) :
    ∃ ch, singleChat buyerId farmerId cropId db = some ch ∧
      ch ∈ db.filter (matchesTriple buyerId farmerId cropId) := by
  unfold countTriple at h
  rw [List.length_eq_one] at h
  obtain ⟨ch, hch⟩ := h
  refine ⟨ch, ?_, by rw [hch]; exact List.mem_singleton_self ch⟩
  unfold singleChat
  rw [hch]

/-- Claim C4: a conversation is keyed by the buyer+farmer+crop triple.
Starting from a chats table holding at most one chat for the triple:
when one exists, `findOrCreateChat` activates it and inserts nothing; when
none exists, it inserts exactly one new chat carrying that `buyer_id`,
`farmer_id` and `crop_id` and activates it; afterwards exactly one chat
for the triple exists, and invoking `findOrCreateChat` again with the
same triple leaves the table unchanged — no second conversation. -/
theorem chat_triple_dedup (u : AuthUser) (farmerId cropId id1 id2 : String)
    (now1 now2 : Nat) (db : List ChatRow)
    (h : countTriple u.uid farmerId cropId db ≤ 1) :
    (countTriple u.uid farmerId cropId db = 1 →
      (findOrCreateChat (some u) farmerId cropId id1 now1 (.ok ()) db).db =
          db ∧
      ∃ ch, singleChat u.uid farmerId cropId db = some ch ∧
        (findOrCreateChat (some u) farmerId cropId id1 now1 (.ok ())
            db).activeChat = some ch.id) ∧
    (countTriple u.uid farmerId cropId db = 0 →
      (findOrCreateChat (some u) farmerId cropId id1 now1 (.ok ()) db).db =
        db ++ [{ id := id1, farmer_id := farmerId, buyer_id := u.uid
                 crop_id := some cropId, updated_at := now1 }] ∧
      (findOrCreateChat (some u) farmerId cropId id1 now1 (.ok ())
          db).activeChat = some id1) ∧
    countTriple u.uid farmerId cropId
      (findOrCreateChat (some u) farmerId cropId id1 now1 (.ok ()) db).db
      = 1 ∧
    (findOrCreateChat (some u) farmerId cropId id2 now2 (.ok ())
        (findOrCreateChat (some u) farmerId cropId id1 now1 (.ok ())
          db).db).db =
      (findOrCreateChat (some u) farmerId cropId id1 now1 (.ok ()) db).db := by
  rcases Nat.le_one_iff_eq_zero_or_eq_one.mp h with h0 | h1
  · have hs := singleChat_of_count_zero u.uid farmerId cropId db h0
    have hdb1 : (findOrCreateChat (some u) farmerId cropId id1 now1 (.ok ())
        db).db =
        db ++ [{ id := id1, farmer_id := farmerId, buyer_id := u.uid
                 crop_id := some cropId, updated_at := now1 }] := by
      simp [findOrCreateChat, hs]
    have hcount1 : countTriple u.uid farmerId cropId
        (findOrCreateChat (some u) farmerId cropId id1 now1 (.ok ()) db).db
        = 1 := by
      rw [hdb1, countTriple_append, h0]
      simp [countTriple, matchesTriple_new]
    refine ⟨fun hc => absurd (h0 ▸ hc) (by simp), fun _ => ⟨hdb1, ?_⟩,
      hcount1, ?_⟩
    · simp [findOrCreateChat, hs]
    · set o1 := findOrCreateChat (some u) farmerId cropId id1 now1 (.ok ()) db
        with ho1
      obtain ⟨ch, hch, _⟩ := singleChat_of_count_one u.uid farmerId cropId
        o1.db hcount1
      simp [findOrCreateChat, hch]
  · obtain ⟨ch, hch, _⟩ := singleChat_of_count_one u.uid farmerId cropId db h1
    have hdb1 : (findOrCreateChat (some u) farmerId cropId id1 now1 (.ok ())
        db).db = db := by
      simp [findOrCreateChat, hch]
    refine ⟨fun _ => ⟨hdb1, ch, hch, by simp [findOrCreateChat, hch]⟩,
      fun hc => absurd (h1 ▸ hc) (by simp), by rw [hdb1]; exact h1, ?_⟩
    rw [hdb1]
    simp [findOrCreateChat, hch]

/-- Witness for `chat_triple_dedup`: on an empty chats table a new chat
carrying the triple is inserted and activated. -/
theorem chat_triple_dedup_witness :
    (findOrCreateChat
        (some { uid := "b1", phoneNumber := none, email := none })
        "f1" "c1" "chat1" 5 (.ok ()) []).db =
      [] ++ [{ id := "chat1", farmer_id := "f1", buyer_id := "b1"
               crop_id := some "c1", updated_at := 5 }] ∧
    (findOrCreateChat
        (some { uid := "b1", phoneNumber := none, email := none })
        "f1" "c1" "chat1" 5 (.ok ()) []).activeChat = some "chat1" :=
  (chat_triple_dedup { uid := "b1", phoneNumber := none, email := none }
      "f1" "c1" "chat1" "chat2" 5 6 [] (by decide)).2.1 (by decide)

end FarmMarket
